import Mathlib

/-!
# trace-lib/pkg/tracer.go

A shallow embedding of the tracer initializer and registry of
`src/trace-lib/pkg/tracer.go`, and the properties of it that the specification
states.

The package is glue over the OpenTelemetry SDK.  The SDK is not part of the
repository, so its operations are taken as a parameter (`Sdk`); everything the
package itself does (which SDK call is made with which arguments, what is
stored in which package variable, which call panics or exits) is embedded as
executable definitions over an explicit process state.
-/

namespace Tracer

/-! ## The SDK, as a parameter -/

/-- `oteltrace.SpanKind`. -/
inductive SpanKind
  | SpanKindUnspecified
  | SpanKindInternal
  | SpanKindServer
  | SpanKindClient
  | SpanKindProducer
  | SpanKindConsumer
  deriving DecidableEq, Repr

/-- `oteltrace.SpanStartOption`, as far as the package builds them. -/
inductive SpanStartOption
  | WithSpanKind (kind : SpanKind)
  deriving DecidableEq, Repr

/-- `jaeger.CollectorEndpointOption`. -/
inductive CollectorEndpointOption
  | WithEndpoint (endpoint : String)
  deriving DecidableEq, Repr

/-- `jaeger.EndpointOption`. -/
inductive EndpointOption
  | WithCollectorEndpoint (options : List CollectorEndpointOption)
  deriving DecidableEq, Repr

/-- `tracesdk.Sampler`. -/
inductive Sampler
  | AlwaysSample
  | NeverSample
  deriving DecidableEq, Repr

/-- `attribute.KeyValue` with a string value (`attribute.String`, `Key.String`). -/
structure KeyValue where
  Key : String
  Value : String
  deriving DecidableEq, Repr

/-- `resource.Resource` as built by `resource.NewWithAttributes`. -/
structure Resource where
  schemaURL : String
  attrs : List KeyValue
  deriving DecidableEq, Repr

/-- `resource.NewWithAttributes(schemaURL, attrs...)`. -/
def Resource.NewWithAttributes (schemaURL : String) (attrs : List KeyValue) : Resource :=
  { schemaURL := schemaURL, attrs := attrs }

/-- `tracesdk.TracerProviderOption`, over the exporter type of the SDK. -/
inductive TracerProviderOption (Exporter : Type)
  | WithSampler (s : Sampler)
  | WithBatcher (e : Exporter)
  | WithSyncer (e : Exporter)
  | WithResource (r : Resource)
  deriving DecidableEq, Repr

/-- The operations of the tracing SDK that the package calls.  `World` is the
SDK's own state (identifier generators, span processors, connections); every
SDK call that is not a pure constructor threads it. -/
structure Sdk where
  /-- `context.Context` -/
  Context : Type
  /-- `trace.Span` -/
  Span : Type
  /-- `trace.Tracer` (a non-nil interface value) -/
  Tracer : Type
  /-- `*tracesdk.TracerProvider` -/
  TracerProvider : Type
  /-- `*jaeger.Exporter` -/
  Exporter : Type
  /-- error values made by the SDK -/
  Error : Type
  World : Type
  /-- `context.Background()` -/
  Background : Context
  /-- `context.WithTimeout(parent, d)`, with `d` in seconds -/
  WithTimeout : Context → Nat → Context
  /-- `err.Error()` of an SDK error -/
  errorString : Error → String
  /-- `jaeger.New(endpointOption)` -/
  jaegerNew : EndpointOption → World → Except Error Exporter × World
  /-- `tracesdk.NewTracerProvider(opts...)` -/
  NewTracerProvider : List (TracerProviderOption Exporter) → World → TracerProvider × World
  /-- `tp.Tracer(name)` -/
  providerTracer : TracerProvider → String → World → Tracer × World
  /-- `tp.Shutdown(ctx)` -/
  providerShutdown : TracerProvider → Context → World → Option Error × World
  /-- `tracer.Start(ctx, name, opts...)` -/
  Start : Tracer → Context → String → List SpanStartOption → World → (Context × Span) × World

/-- Modelled from the spec: the constant `semconv.ServiceNameKey` of the SDK's
`semconv/v1.4.0` package, which is not in the repository; the spec gives the
attribute as `service.name = <service>`. -/
def semconv.ServiceNameKey : String := "service.name"

/-- Modelled from the spec: the constant `semconv.SchemaURL` of the SDK's
`semconv/v1.4.0` package, which is not in the repository; the spec says nothing
of its value, and nothing below depends on it. -/
def semconv.SchemaURL : String := "https://opentelemetry.io/schemas/1.4.0"

/-! ## Data model -/

/-- `const serviceName = "cronos-tracing"`. -/
def serviceName : String := "cronos-tracing"

/-- `type BlockInfo struct { Height int64; Round int32 }`.  The fields are
compared only, never computed with, so they are unbounded integers here. -/
structure BlockInfo where
  Height : Int
  Round : Int
  deriving DecidableEq, Repr

/-- `func (b *BlockInfo) ShouldRefreshInfo(height int64, round int32) bool`,
for a non-nil receiver. -/
def BlockInfo.ShouldRefreshInfo (b : BlockInfo) (height : Int) (_round : Int) : Bool :=
  if height > b.Height then
    true
  else
    false

/-- Go `error` values the package handles: one made by the SDK, or the result
of `fmt.Errorf` with a `%w` verb, which keeps its text and the wrapped error. -/
inductive GoError (E : Type)
  | ext (e : E)
  | wrapError (msg : String) (err : GoError E)
  deriving DecidableEq, Repr

/-- `err.Error()`. -/
def GoError.Error (S : Sdk) : GoError S.Error → String
  | .ext e => S.errorString e
  | .wrapError msg _ => msg

/-- `errors.Unwrap(err)`. -/
def GoError.Unwrap {E : Type} : GoError E → Option (GoError E)
  | .ext _ => none
  | .wrapError _ err => some err

/-- `fmt.Errorf(pre + "%w", err)`: the format is a fixed text followed by `%w`. -/
def Errorf_w (S : Sdk) (pre : String) (err : GoError S.Error) : GoError S.Error :=
  .wrapError (pre ++ err.Error S) err

/-- The function value built in `InitTracer` (lines 103-110): a closure whose
only captured variable is the provider `tp`. -/
structure ShutdownFn (S : Sdk) where
  tp : S.TracerProvider

/-- `type TracerN struct { trace.Tracer; ctx context.Context; Shutdown func() }`.
The embedded interface and the function value may be nil. -/
structure TracerN (S : Sdk) where
  Tracer : Option S.Tracer
  ctx : S.Context
  Shutdown : Option (ShutdownFn S)

/-- Addresses of `TracerN` objects; a `*TracerN` is an `Option Ptr`. -/
abbrev Ptr := Nat

/-- The process state the package reads and writes: its package variables, the
`TracerN` objects it has allocated, the SDK's process-wide provider
(`otel.SetTracerProvider` / `otel.GetTracerProvider`) and the SDK's own state. -/
structure State (S : Sdk) where
  JaegerCollectorURL : String
  CurrentBlockInfo : Option BlockInfo
  GlobalTracer : Option Ptr
  EthermintTracer : Option Ptr
  CosmosTracer : Option Ptr
  heap : List (TracerN S)
  activeProvider : Option S.TracerProvider
  world : S.World

/-- Run-time panics of the Go runtime that the package can raise. -/
inductive Panic
  | nilDereference
  | indexOutOfRange (index len : Nat)
  deriving DecidableEq, Repr

/-- How a call of a package function ends. `ret` is a normal return; `fatal` is
`log.Fatal(err)` (print and `os.Exit(1)`); `panic` is a run-time panic.  Each
carries the state at that point.  `stuck` is not a Go behaviour: the address
used is not that of an allocated object, which no Go pointer can be. -/
inductive Outcome (S : Sdk) (α : Type)
  | ret (v : α) (σ : State S)
  | fatal (err : GoError S.Error) (σ : State S)
  | panic (p : Panic) (σ : State S)
  | stuck

/-- The state in which a call ended. -/
def Outcome.state? {S : Sdk} {α : Type} : Outcome S α → Option (State S)
  | .ret _ σ => some σ
  | .fatal _ σ => some σ
  | .panic _ σ => some σ
  | .stuck => none

/-- The call returned to its caller. -/
def Outcome.returned {S : Sdk} {α : Type} : Outcome S α → Bool
  | .ret _ _ => true
  | _ => false

/-! ## Operations -/

/-- A Go slice of `*TracerN`: `none` is the nil slice, `some xs` an allocated
slice with elements `xs` (possibly of length zero). -/
abbrev Slice := Option (List (Option Ptr))

/-- What a variadic parameter `t ...*TracerN` receives when the call lists its
arguments one by one: nil when there are none, else a new slice of them. -/
def variadic (args : List (Option Ptr)) : Slice :=
  match args with
  | [] => none
  | a :: rest => some (a :: rest)

/-- `func GetTracer(t ...*TracerN) *TracerN`; `t` is what the variadic
parameter holds (a call `GetTracer(s...)` passes the slice `s` itself). -/
def GetTracer (t : Slice) : Except Panic (Option Ptr) :=
  match t with
  | none => .ok none
  | some xs =>
    match xs[0]? with
    | some x => .ok x
    | none => .error (.indexOutOfRange 0 xs.length)

/-- `func newTracerProvider(serviceName, instanceName string)
(*tracesdk.TracerProvider, error)`.  Reads `JaegerCollectorURL` as it is at the
call. -/
def newTracerProvider {S : Sdk} (serviceName instanceName : String) (σ : State S) :
    Except (GoError S.Error) S.TracerProvider × State S :=
  -- Create the Jaeger exporter
  match S.jaegerNew (.WithCollectorEndpoint [.WithEndpoint σ.JaegerCollectorURL]) σ.world with
  | (.error err, w1) => (.error (.ext err), { σ with world := w1 })
  | (.ok exp, w1) =>
    let (tp, w2) := S.NewTracerProvider
      [ .WithSampler .AlwaysSample,
        -- Always be sure to batch in production.
        .WithBatcher exp,
        -- Record information about this application in a Resource.
        .WithResource (Resource.NewWithAttributes semconv.SchemaURL
          [ { Key := semconv.ServiceNameKey, Value := serviceName },
            { Key := "service-instance", Value := instanceName } ]) ] w1
    (.ok tp, { σ with world := w2 })

/-- What `InitTracer` returns: `(trace.Tracer, func(), error)`, each of which
may be nil. -/
structure InitResult (S : Sdk) where
  tracer : Option S.Tracer
  shutdown : Option (ShutdownFn S)
  err : Option (GoError S.Error)

/-- `func InitTracer(serviceName, instanceName string) (trace.Tracer, func(), error)`.
The parameter `serviceName` shadows the package constant of that name. -/
def InitTracer {S : Sdk} (serviceName instanceName : String) (σ : State S) :
    InitResult S × State S :=
  match newTracerProvider serviceName instanceName σ with
  | (.error err, σ1) =>
    ({ tracer := none, shutdown := none,
       err := some (Errorf_w S "couldn't initialize tracer provider: " err) }, σ1)
  | (.ok tp, σ1) =>
    -- otel.SetTracerProvider(tp)
    let σ2 := { σ1 with activeProvider := some tp }
    let shutdown : ShutdownFn S := { tp := tp }
    let (tracer, w3) := S.providerTracer tp serviceName σ2.world
    -- `err` is nil on this path
    ({ tracer := some tracer, shutdown := some shutdown, err := none }, { σ2 with world := w3 })

/-- Calling the function value `shutdown` of `InitTracer` (lines 103-110). -/
def ShutdownFn.call {S : Sdk} (f : ShutdownFn S) (σ : State S) : Outcome S Unit :=
  -- Do not make the application hang when it is shutdown.
  let ctx := S.WithTimeout S.Background 5
  match S.providerShutdown f.tp ctx σ.world with
  | (some err, w1) => .fatal (.ext err) { σ with world := w1 }
  | (none, w1) => .ret () { σ with world := w1 }

/-- `&TracerN{...}`: a new object at an address not in use. -/
def State.alloc {S : Sdk} (σ : State S) (t : TracerN S) : Ptr × State S :=
  (σ.heap.length, { σ with heap := σ.heap ++ [t] })

/-- The object a non-nil pointer points to. -/
def State.deref {S : Sdk} (σ : State S) (p : Ptr) : Option (TracerN S) :=
  σ.heap[p]?

/-- `func NewEthermintTracer() *TracerN`. -/
def NewEthermintTracer {S : Sdk} (σ : State S) : Outcome S (Option Ptr) :=
  match InitTracer "ethermint" "instance" σ with
  | ({ tracer := _, shutdown := _, err := some err }, σ1) => .fatal err σ1
  | ({ tracer := aTracer, shutdown := shutdown, err := none }, σ1) =>
    match σ1.GlobalTracer with
    | none => .panic .nilDereference σ1
    | some g =>
      match σ1.deref g with
      | none => .stuck
      | some global =>
        let (p, σ2) := σ1.alloc { Tracer := aTracer, ctx := global.ctx, Shutdown := shutdown }
        let σ3 := { σ2 with EthermintTracer := some p }
        .ret σ3.EthermintTracer σ3

/-- `func NewCosmosTracer() *TracerN`. -/
def NewCosmosTracer {S : Sdk} (σ : State S) : Outcome S (Option Ptr) :=
  match InitTracer "cosmos-sdk" "instance" σ with
  | ({ tracer := _, shutdown := _, err := some err }, σ1) => .fatal err σ1
  | ({ tracer := aTracer, shutdown := shutdown, err := none }, σ1) =>
    match σ1.GlobalTracer with
    | none => .panic .nilDereference σ1
    | some g =>
      match σ1.deref g with
      | none => .stuck
      | some global =>
        let (p, σ2) := σ1.alloc { Tracer := aTracer, ctx := global.ctx, Shutdown := shutdown }
        let σ3 := { σ2 with CosmosTracer := some p }
        .ret σ3.CosmosTracer σ3

/-- `func NewTracer(service string, instance string) *TracerN`. -/
def NewTracer {S : Sdk} (service inst : String) (σ : State S) : Outcome S (Option Ptr) :=
  match InitTracer service inst σ with
  | ({ tracer := _, shutdown := _, err := some err }, σ1) => .fatal err σ1
  | ({ tracer := aTracer, shutdown := shutdown, err := none }, σ1) =>
    let (p, σ2) := σ1.alloc { Tracer := aTracer, ctx := S.Background, Shutdown := shutdown }
    let σ3 := { σ2 with GlobalTracer := some p }
    .ret σ3.GlobalTracer σ3

/-- `func (t *TracerN) StartSpan(name string) trace.Span`.  The receiver may be
nil, and so may the embedded `trace.Tracer`; `t.Start` panics on either. -/
def StartSpan {S : Sdk} (t : Option Ptr) (name : String) (σ : State S) : Outcome S S.Span :=
  let opts : List SpanStartOption := [ .WithSpanKind .SpanKindServer ]
  match t with
  | none => .panic .nilDereference σ
  | some p =>
    match σ.deref p with
    | none => .stuck
    | some tn =>
      match tn.Tracer with
      | none => .panic .nilDereference σ
      | some tracer =>
        let ((ctx, span), w1) := S.Start tracer tn.ctx name opts σ.world
        .ret span { σ with world := w1, heap := σ.heap.set p { tn with ctx := ctx } }

/-! ## Sequences of calls -/

/-- The three package variables that hold a `*TracerN`. -/
inductive Slot
  | GlobalTracer
  | EthermintTracer
  | CosmosTracer
  deriving DecidableEq, Repr

/-- The pointer a package variable holds. -/
def State.slot {S : Sdk} (σ : State S) : Slot → Option Ptr
  | .GlobalTracer => σ.GlobalTracer
  | .EthermintTracer => σ.EthermintTracer
  | .CosmosTracer => σ.CosmosTracer

/-- The stored context of the `TracerN` behind a pointer (`t.ctx`). -/
def State.ctxOf {S : Sdk} (σ : State S) (t : Option Ptr) : Option S.Context :=
  match t with
  | none => none
  | some p => (σ.deref p).map (·.ctx)

/-- `X.Shutdown()` for a package variable `X`: nil `X` and a nil function value
both panic. -/
def callShutdown {S : Sdk} (t : Option Ptr) (σ : State S) : Outcome S Unit :=
  match t with
  | none => .panic .nilDereference σ
  | some p =>
    match σ.deref p with
    | none => .stuck
    | some tn =>
      match tn.Shutdown with
      | none => .panic .nilDereference σ
      | some f => f.call σ

/-- A use of the package by its host: a call of one of its functions on one of
its variables, or an assignment to `JaegerCollectorURL`. -/
inductive Call
  | NewTracer (service inst : String)
  | NewEthermintTracer
  | NewCosmosTracer
  | InitTracer (serviceName instanceName : String)
  | StartSpan (slot : Slot) (name : String)
  | Shutdown (slot : Slot)
  | SetJaegerCollectorURL (url : String)
  deriving DecidableEq, Repr

/-- The state after a call, when the call returned; `none` when the process
ended in it. -/
def execCall {S : Sdk} (c : Call) (σ : State S) : Option (State S) :=
  match c with
  | .NewTracer service inst =>
    match NewTracer service inst σ with
    | .ret _ σ1 => some σ1
    | _ => none
  | .NewEthermintTracer =>
    match NewEthermintTracer σ with
    | .ret _ σ1 => some σ1
    | _ => none
  | .NewCosmosTracer =>
    match NewCosmosTracer σ with
    | .ret _ σ1 => some σ1
    | _ => none
  | .InitTracer serviceName instanceName => some (InitTracer serviceName instanceName σ).2
  | .StartSpan slot name =>
    match StartSpan (σ.slot slot) name σ with
    | .ret _ σ1 => some σ1
    | _ => none
  | .Shutdown slot =>
    match callShutdown (σ.slot slot) σ with
    | .ret _ σ1 => some σ1
    | _ => none
  | .SetJaegerCollectorURL url => some { σ with JaegerCollectorURL := url }

/-- The state after a sequence of calls that all returned. -/
def runCalls {S : Sdk} : List Call → State S → Option (State S)
  | [], σ => some σ
  | c :: rest, σ =>
    match execCall c σ with
    | none => none
    | some σ1 => runCalls rest σ1

/-- A pointer is nil or the address of an allocated object. -/
def State.valid {S : Sdk} (σ : State S) (t : Option Ptr) : Bool :=
  match t with
  | none => true
  | some p => decide (p < σ.heap.length)

/-- No package variable dangles.  Every state of a Go process is so. -/
def State.WF {S : Sdk} (σ : State S) : Prop :=
  σ.valid σ.GlobalTracer = true ∧ σ.valid σ.EthermintTracer = true ∧
    σ.valid σ.CosmosTracer = true

/-- Two pointers do not point to the same object. -/
def apart (x y : Option Ptr) : Bool :=
  match x, y with
  | some p, some q => p != q
  | _, _ => true

/-- No package variable dangles, and the object behind the variable `n` is
behind no other of the three variables. -/
def State.ownObject {S : Sdk} (σ : State S) (n : Slot) : Prop :=
  σ.WF ∧ ∀ m, m ≠ n → apart (σ.slot n) (σ.slot m) = true

/-- The state of the package when the process starts: the variables as
declared, nothing allocated. -/
def State.init {S : Sdk} (w : S.World) : State S :=
  { JaegerCollectorURL := "http://localhost:14278/api/traces"
    CurrentBlockInfo := none
    GlobalTracer := none
    EthermintTracer := none
    CosmosTracer := none
    heap := []
    activeProvider := none
    world := w }

/-! ## A small SDK to run the definitions on -/

/-- A span of the sample SDK: its name, its kind, the names of the spans above
it (nearest first), and a serial number. -/
structure SampleSpan where
  name : String
  kind : SpanKind
  parents : List String
  serial : Nat
  deriving DecidableEq, Repr

/-- A provider of the sample SDK: the options it was built with, and a serial
number. -/
structure SampleProvider where
  opts : List (TracerProviderOption String)
  serial : Nat
  deriving DecidableEq, Repr

/-- The endpoint a list of collector options selects (the last one given). -/
def sampleEndpoint : List CollectorEndpointOption → String
  | [] => "http://localhost:14268/api/traces"
  | [.WithEndpoint e] => e
  | _ :: rest => sampleEndpoint rest

/-- The kind a list of span options selects (the last one given). -/
def sampleKind : List SpanStartOption → SpanKind
  | [] => .SpanKindInternal
  | [.WithSpanKind k] => k
  | _ :: rest => sampleKind rest

/-- A deterministic stand-in for the SDK.  A context is the list of names of the
spans open in it; the exporter is its endpoint, and building it fails on the
empty endpoint; the world is a counter of objects made. -/
@[reducible]
def sampleSdk : Sdk where
  Context := List String
  Span := SampleSpan
  Tracer := String × Nat
  TracerProvider := SampleProvider
  Exporter := String
  Error := String
  World := Nat
  Background := []
  WithTimeout := fun c _ => c
  errorString := fun e => e
  jaegerNew := fun o w =>
    match o with
    | .WithCollectorEndpoint os =>
      if sampleEndpoint os = "" then (.error "missing endpoint", w) else (.ok (sampleEndpoint os), w)
  NewTracerProvider := fun opts w => ({ opts := opts, serial := w }, w + 1)
  providerTracer := fun tp name w => ((name, tp.serial), w)
  providerShutdown := fun _ _ w => (none, w)
  Start := fun _ ctx name opts w =>
    ((name :: ctx, { name := name, kind := sampleKind opts, parents := ctx, serial := w }), w + 1)

/-- The provider the sample SDK builds for a service and an instance name when
the collector URL is the one the package declares. -/
def sampleProviderFor (s i : String) (serial : Nat) : SampleProvider :=
  { opts :=
      [ .WithSampler .AlwaysSample,
        .WithBatcher "http://localhost:14278/api/traces",
        .WithResource
          { schemaURL := semconv.SchemaURL,
            attrs := [ { Key := "service.name", Value := s },
                       { Key := "service-instance", Value := i } ] } ],
    serial := serial }

/-- A `TracerN` as the zero value of the struct leaves its function fields: no
tracer, no shutdown function. -/
def sampleBare : TracerN sampleSdk :=
  { Tracer := none, ctx := [], Shutdown := none }

/-- A state with one allocated `TracerN` that embeds no tracer. -/
def sampleBareState : State sampleSdk :=
  { (State.init (0 : Nat) : State sampleSdk) with heap := [sampleBare] }

/-- The state after `NewTracer("svc", "i0")` from the start of the process. -/
def sampleGlobalState : State sampleSdk :=
  (execCall (.NewTracer "svc" "i0") (State.init (0 : Nat))).getD (State.init (0 : Nat))

/-- The `TracerN` that `NewTracer("svc", "i0")` makes at the start of the
process. -/
def sampleGlobal : TracerN sampleSdk :=
  { Tracer := some ("svc", 0), ctx := [],
    Shutdown := some { tp := sampleProviderFor "svc" "i0" 0 } }

/-- The state after `NewTracer("svc", "i0")` and `NewEthermintTracer()` from the
start of the process. -/
def sampleNamedState : State sampleSdk :=
  (runCalls [.NewTracer "svc" "i0", .NewEthermintTracer] (State.init (0 : Nat))).getD
    (State.init (0 : Nat))

/-- The start state with the collector URL set to the empty string. -/
def sampleBadUrlState : State sampleSdk :=
  { (State.init (0 : Nat) : State sampleSdk) with JaegerCollectorURL := "" }

/-! ## Lemmas shared by the theorems below -/

/-- `InitTracer` when `jaeger.New` returns an error. -/
theorem InitTracer_error {S : Sdk} (s i : String) (σ : State S) (e : S.Error)
    (w1 : S.World)
    (h : S.jaegerNew (.WithCollectorEndpoint [.WithEndpoint σ.JaegerCollectorURL]) σ.world
      = (.error e, w1)) :
    InitTracer s i σ =
      ({ tracer := none, shutdown := none,
         err := some (.wrapError ("couldn't initialize tracer provider: " ++ S.errorString e)
           (.ext e)) }, { σ with world := w1 }) := by
  simp [InitTracer, newTracerProvider, h, Errorf_w, GoError.Error]

/-- `InitTracer` when `jaeger.New` returns an exporter. -/
theorem InitTracer_ok {S : Sdk} (s i : String) (σ : State S) (exp : S.Exporter)
    (w1 w2 w3 : S.World) (tp : S.TracerProvider) (tr : S.Tracer)
    (hexp : S.jaegerNew (.WithCollectorEndpoint [.WithEndpoint σ.JaegerCollectorURL]) σ.world
      = (.ok exp, w1))
    (htp : S.NewTracerProvider
      [ .WithSampler .AlwaysSample, .WithBatcher exp,
        .WithResource (Resource.NewWithAttributes semconv.SchemaURL
          [ { Key := semconv.ServiceNameKey, Value := s },
            { Key := "service-instance", Value := i } ]) ] w1 = (tp, w2))
    (htr : S.providerTracer tp s w2 = (tr, w3)) :
    InitTracer s i σ =
      ({ tracer := some tr, shutdown := some { tp := tp }, err := none },
       { σ with activeProvider := some tp, world := w3 }) := by
  simp [InitTracer, newTracerProvider, hexp, htp, htr]

/-- `InitTracer` returns no error exactly when it returns a tracer and a
shutdown function. -/
theorem InitTracer_cases {S : Sdk} (s i : String) (σ : State S) :
    (∃ e w1, S.jaegerNew (.WithCollectorEndpoint [.WithEndpoint σ.JaegerCollectorURL]) σ.world
        = (.error e, w1) ∧
      InitTracer s i σ =
        ({ tracer := none, shutdown := none,
           err := some (.wrapError ("couldn't initialize tracer provider: " ++ S.errorString e)
             (.ext e)) }, { σ with world := w1 })) ∨
    (∃ exp w1 tp w3 tr,
      S.jaegerNew (.WithCollectorEndpoint [.WithEndpoint σ.JaegerCollectorURL]) σ.world
        = (.ok exp, w1) ∧
      InitTracer s i σ =
        ({ tracer := some tr, shutdown := some { tp := tp }, err := none },
         { σ with activeProvider := some tp, world := w3 })) := by
  rcases h : S.jaegerNew (.WithCollectorEndpoint [.WithEndpoint σ.JaegerCollectorURL]) σ.world
    with ⟨e | exp, w1⟩
  · exact Or.inl ⟨e, w1, rfl, InitTracer_error s i σ e w1 h⟩
  · exact Or.inr ⟨exp, w1, _, _, _, rfl, InitTracer_ok s i σ exp w1 _ _ _ _ h rfl rfl⟩

/-- `InitTracer` leaves the package's own variables and objects alone. -/
theorem InitTracer_frame {S : Sdk} (s i : String) (σ : State S) :
    (InitTracer s i σ).2.heap = σ.heap ∧
    (InitTracer s i σ).2.GlobalTracer = σ.GlobalTracer ∧
    (InitTracer s i σ).2.EthermintTracer = σ.EthermintTracer ∧
    (InitTracer s i σ).2.CosmosTracer = σ.CosmosTracer ∧
    (InitTracer s i σ).2.JaegerCollectorURL = σ.JaegerCollectorURL ∧
    (InitTracer s i σ).2.CurrentBlockInfo = σ.CurrentBlockInfo := by
  rcases InitTracer_cases s i σ with ⟨e, w1, _, h⟩ | ⟨exp, w1, tp, w3, tr, _, h⟩ <;> simp [h]

/-! ## `ShouldRefreshInfo` and `GetTracer` -/

/-- C1: `b.ShouldRefreshInfo(h, r)` is true exactly when `h > b.Height`, for all
integers, so in particular for every `int64` height and `int32` round; the
result does not depend on `r` or on `b.Round`; with `b.Height = 100`,
`(101, 0)` gives true, `(100, 5)` false and `(99, 0)` false. -/
theorem ShouldRefreshInfo_iff_height_gt :
    (∀ (b : BlockInfo) (h r : Int), b.ShouldRefreshInfo h r = true ↔ h > b.Height) ∧
    (∀ (H R R2 h r r2 : Int),
      BlockInfo.ShouldRefreshInfo { Height := H, Round := R } h r =
        BlockInfo.ShouldRefreshInfo { Height := H, Round := R2 } h r2) ∧
    (∀ R : Int,
      BlockInfo.ShouldRefreshInfo { Height := 100, Round := R } 101 0 = true ∧
      BlockInfo.ShouldRefreshInfo { Height := 100, Round := R } 100 5 = false ∧
      BlockInfo.ShouldRefreshInfo { Height := 100, Round := R } 99 0 = false) := by
  refine ⟨?_, ?_, ?_⟩
  · intro b h r
    simp [BlockInfo.ShouldRefreshInfo]
  · intro H R R2 h r r2
    simp [BlockInfo.ShouldRefreshInfo]
  · intro R
    simp [BlockInfo.ShouldRefreshInfo]

/-- C2: `GetTracer()` returns nil; `GetTracer(x)` returns `x` for a non-nil `x`;
and whenever the argument list has at least one element, whether listed in the
call or passed as a slice, `GetTracer` returns the first and ignores the rest. -/
theorem GetTracer_first_or_nil :
    GetTracer (variadic []) = .ok none ∧
    (∀ x : Ptr, GetTracer (variadic [some x]) = .ok (some x)) ∧
    (∀ (x : Option Ptr) (rest : List (Option Ptr)),
      GetTracer (variadic (x :: rest)) = .ok x) ∧
    (∀ (x : Option Ptr) (rest : List (Option Ptr)),
      GetTracer (some (x :: rest)) = .ok x) := by
  refine ⟨rfl, fun _ => rfl, ?_, ?_⟩ <;> intro x rest <;> simp [GetTracer, variadic]

/-- C3: on the allocated slice of length zero, `GetTracer([]*TracerN{}...)`, the
code does not return nil: the slice is not nil, so `t[0]` is evaluated and
panics with an index out of range. -/
theorem GetTracer_empty_slice_panics :
    GetTracer (some []) = .error (.indexOutOfRange 0 0) ∧
    GetTracer (some []) ≠ .ok none := by
  constructor
  · rfl
  · intro h
    cases h

/-! ## `InitTracer` -/

/-- C5: `InitTracer` returns a non-nil error exactly when `jaeger.New` fails;
then the tracer and the shutdown function are nil, the error wraps the
exporter's error with the text "couldn't initialize tracer provider: " before
the exporter's, and the active provider is as before the call; when `jaeger.New`
succeeds the returned error is nil. -/
theorem InitTracer_error_iff_exporter_fails {S : Sdk} (s i : String) (σ : State S) :
    ((InitTracer s i σ).1.err ≠ none ↔
      ∃ e, (S.jaegerNew (.WithCollectorEndpoint [.WithEndpoint σ.JaegerCollectorURL])
        σ.world).1 = .error e) ∧
    (∀ e, (S.jaegerNew (.WithCollectorEndpoint [.WithEndpoint σ.JaegerCollectorURL])
        σ.world).1 = .error e →
      (InitTracer s i σ).1.tracer = none ∧
      (InitTracer s i σ).1.shutdown = none ∧
      (∃ err, (InitTracer s i σ).1.err = some err ∧
        err.Unwrap = some (.ext e) ∧
        err.Error S = "couldn't initialize tracer provider: " ++ S.errorString e) ∧
      (InitTracer s i σ).2.activeProvider = σ.activeProvider) ∧
    (∀ exp, (S.jaegerNew (.WithCollectorEndpoint [.WithEndpoint σ.JaegerCollectorURL])
        σ.world).1 = .ok exp →
      (InitTracer s i σ).1.err = none) := by
  rcases InitTracer_cases s i σ with ⟨e, w1, hj, h⟩ | ⟨exp, w1, tp, w3, tr, hj, h⟩
  · refine ⟨?_, ?_, ?_⟩
    · simp [h, hj]
    · intro e2 he2
      have : e2 = e := by simpa [hj] using he2.symm
      subst this
      simp [h, GoError.Unwrap, GoError.Error]
    · intro exp hexp
      simp [hj] at hexp
  · refine ⟨?_, ?_, ?_⟩
    · simp [h, hj]
    · intro e he
      simp [hj] at he
    · intro _ _
      simp [h]

/-- Witness for C5 on the sample SDK, with the collector URL set to the empty
string, on which the sample exporter fails: `InitTracer` returns no tracer, no
shutdown function and the wrapped error, and installs no provider. -/
theorem InitTracer_error_iff_exporter_fails_witness :
    (sampleSdk.jaegerNew (.WithCollectorEndpoint [.WithEndpoint sampleBadUrlState.JaegerCollectorURL])
      sampleBadUrlState.world).1 = .error "missing endpoint" ∧
    (InitTracer "svc" "i0" sampleBadUrlState).1.tracer = none ∧
    (InitTracer "svc" "i0" sampleBadUrlState).1.shutdown = none ∧
    (∃ err, (InitTracer "svc" "i0" sampleBadUrlState).1.err = some err ∧
      err.Unwrap = some (.ext "missing endpoint") ∧
      err.Error sampleSdk = "couldn't initialize tracer provider: missing endpoint") ∧
    (InitTracer "svc" "i0" sampleBadUrlState).2.activeProvider = none :=
  ⟨rfl, (InitTracer_error_iff_exporter_fails "svc" "i0" sampleBadUrlState).2.1
    "missing endpoint" rfl⟩

/-- C9: when `jaeger.New` succeeds on the endpoint `JaegerCollectorURL` holds at
the call, `InitTracer(s, i)` builds the provider with exactly the options
always-sample, batcher over that exporter, and the resource with attributes
`service.name = s`, `service-instance = i`; makes it the active provider;
and returns the tracer that provider gives for the name `s`, a non-nil shutdown
function (over that provider) and a nil error. -/
theorem InitTracer_builds_and_installs_provider {S : Sdk} (s i : String) (σ : State S)
    (exp : S.Exporter) (w1 w2 w3 : S.World) (tp : S.TracerProvider) (tr : S.Tracer)
    (hexp : S.jaegerNew (.WithCollectorEndpoint [.WithEndpoint σ.JaegerCollectorURL]) σ.world
      = (.ok exp, w1))
    (htp : S.NewTracerProvider
      [ .WithSampler .AlwaysSample, .WithBatcher exp,
        .WithResource { schemaURL := semconv.SchemaURL,
                        attrs := [ { Key := "service.name", Value := s },
                                   { Key := "service-instance", Value := i } ] } ] w1
      = (tp, w2))
    (htr : S.providerTracer tp s w2 = (tr, w3)) :
    (InitTracer s i σ).1.tracer = some tr ∧
    (InitTracer s i σ).1.shutdown = some { tp := tp } ∧
    (InitTracer s i σ).1.shutdown ≠ none ∧
    (InitTracer s i σ).1.err = none ∧
    (InitTracer s i σ).2.activeProvider = some tp ∧
    (InitTracer s i σ).2 = { σ with activeProvider := some tp, world := w3 } := by
  have h := InitTracer_ok s i σ exp w1 w2 w3 tp tr hexp htp htr
  simp [h]

/-- Witness for C9 on the sample SDK, from the start state, with service "svc"
and instance "i0". -/
theorem InitTracer_builds_and_installs_provider_witness :
    (InitTracer "svc" "i0" (State.init (0 : Nat) : State sampleSdk)).1.tracer
        = some ("svc", 0) ∧
    (InitTracer "svc" "i0" (State.init (0 : Nat) : State sampleSdk)).1.tracer
        ≠ some (serviceName, 0) ∧
    (InitTracer "svc" "i0" (State.init (0 : Nat) : State sampleSdk)).2.activeProvider
        = some (sampleProviderFor "svc" "i0" 0) :=
  have h := InitTracer_builds_and_installs_provider (S := sampleSdk) "svc" "i0"
    (State.init (0 : Nat)) "http://localhost:14278/api/traces" 0 1 1
    (sampleProviderFor "svc" "i0" 0) ("svc", 0) rfl rfl rfl
  ⟨h.1, by rw [h.1]; decide, h.2.2.2.2.1⟩

/-! ## The constructors and `StartSpan`, by cases -/

/-- A pointer that points to an object is the address of an allocated one. -/
theorem lt_of_deref {S : Sdk} (σ : State S) (p : Ptr) (t : TracerN S)
    (h : σ.deref p = some t) : p < σ.heap.length := by
  simp only [State.deref] at h
  exact (List.getElem?_eq_some.mp h).1

/-- `NewTracer`, by the result of `InitTracer`. -/
theorem NewTracer_eq {S : Sdk} (s i : String) (σ : State S) :
    NewTracer s i σ =
      match (InitTracer s i σ).1.err with
      | some err => .fatal err (InitTracer s i σ).2
      | none =>
        .ret (some σ.heap.length)
          { (InitTracer s i σ).2 with
            heap := σ.heap ++ [{ Tracer := (InitTracer s i σ).1.tracer, ctx := S.Background,
                                 Shutdown := (InitTracer s i σ).1.shutdown }],
            GlobalTracer := some σ.heap.length } := by
  have hf := (InitTracer_frame s i σ).1
  rcases hr : InitTracer s i σ with ⟨⟨tr, sh, _ | err⟩, σ1⟩ <;>
    simp [NewTracer, hr, State.alloc] at hf ⊢
  simp [hf]

/-- `NewEthermintTracer`, by the result of `InitTracer` and the value of
`GlobalTracer`. -/
theorem NewEthermintTracer_eq {S : Sdk} (σ : State S) :
    NewEthermintTracer σ =
      match (InitTracer "ethermint" "instance" σ).1.err with
      | some err => .fatal err (InitTracer "ethermint" "instance" σ).2
      | none =>
        match σ.GlobalTracer with
        | none => .panic .nilDereference (InitTracer "ethermint" "instance" σ).2
        | some g =>
          match σ.deref g with
          | none => .stuck
          | some global =>
            .ret (some σ.heap.length)
              { (InitTracer "ethermint" "instance" σ).2 with
                heap := σ.heap ++
                  [{ Tracer := (InitTracer "ethermint" "instance" σ).1.tracer,
                     ctx := global.ctx,
                     Shutdown := (InitTracer "ethermint" "instance" σ).1.shutdown }],
                EthermintTracer := some σ.heap.length } := by
  have hf := InitTracer_frame "ethermint" "instance" σ
  rcases hr : InitTracer "ethermint" "instance" σ with ⟨⟨tr, sh, _ | err⟩, σ1⟩
  · simp only [hr] at hf
    rcases hg : σ.GlobalTracer with _ | g
    · simp [NewEthermintTracer, hr, hf.2.1, hg]
    · rcases hd : σ.heap[g]? with _ | gt <;>
        simp [NewEthermintTracer, hr, hf.2.1, hg, State.deref, hf.1, hd, State.alloc]
  · simp [NewEthermintTracer, hr]

/-- `NewCosmosTracer`, by the result of `InitTracer` and the value of
`GlobalTracer`. -/
theorem NewCosmosTracer_eq {S : Sdk} (σ : State S) :
    NewCosmosTracer σ =
      match (InitTracer "cosmos-sdk" "instance" σ).1.err with
      | some err => .fatal err (InitTracer "cosmos-sdk" "instance" σ).2
      | none =>
        match σ.GlobalTracer with
        | none => .panic .nilDereference (InitTracer "cosmos-sdk" "instance" σ).2
        | some g =>
          match σ.deref g with
          | none => .stuck
          | some global =>
            .ret (some σ.heap.length)
              { (InitTracer "cosmos-sdk" "instance" σ).2 with
                heap := σ.heap ++
                  [{ Tracer := (InitTracer "cosmos-sdk" "instance" σ).1.tracer,
                     ctx := global.ctx,
                     Shutdown := (InitTracer "cosmos-sdk" "instance" σ).1.shutdown }],
                CosmosTracer := some σ.heap.length } := by
  have hf := InitTracer_frame "cosmos-sdk" "instance" σ
  rcases hr : InitTracer "cosmos-sdk" "instance" σ with ⟨⟨tr, sh, _ | err⟩, σ1⟩
  · simp only [hr] at hf
    rcases hg : σ.GlobalTracer with _ | g
    · simp [NewCosmosTracer, hr, hf.2.1, hg]
    · rcases hd : σ.heap[g]? with _ | gt <;>
        simp [NewCosmosTracer, hr, hf.2.1, hg, State.deref, hf.1, hd, State.alloc]
  · simp [NewCosmosTracer, hr]

/-- `StartSpan` on a `TracerN` that embeds a tracer. -/
theorem StartSpan_eq {S : Sdk} (σ : State S) (p : Ptr) (t : TracerN S) (tr : S.Tracer)
    (name : String) (ht : σ.deref p = some t) (htr : t.Tracer = some tr) :
    StartSpan (some p) name σ =
      .ret (S.Start tr t.ctx name [.WithSpanKind .SpanKindServer] σ.world).1.2
        { σ with
          world := (S.Start tr t.ctx name [.WithSpanKind .SpanKindServer] σ.world).2,
          heap := σ.heap.set p
            { t with ctx := (S.Start tr t.ctx name [.WithSpanKind .SpanKindServer] σ.world).1.1 } } := by
  simp [StartSpan, ht, htr]

/-- What a call of `StartSpan` can change: when it returns, the SDK's state and
the stored context of the object it was called on; otherwise nothing. -/
theorem StartSpan_frame {S : Sdk} (t : Option Ptr) (name : String) (σ σ1 : State S)
    (h : (StartSpan t name σ).state? = some σ1) :
    σ1.GlobalTracer = σ.GlobalTracer ∧ σ1.EthermintTracer = σ.EthermintTracer ∧
    σ1.CosmosTracer = σ.CosmosTracer ∧ σ1.JaegerCollectorURL = σ.JaegerCollectorURL ∧
    σ1.CurrentBlockInfo = σ.CurrentBlockInfo ∧ σ1.activeProvider = σ.activeProvider ∧
    σ1.heap.length = σ.heap.length ∧
    (∀ q, some q ≠ t → σ1.deref q = σ.deref q) ∧
    (∀ q, (σ1.deref q).map (·.Tracer) = (σ.deref q).map (·.Tracer) ∧
          (σ1.deref q).map (·.Shutdown) = (σ.deref q).map (·.Shutdown)) := by
  rcases t with _ | p
  · simp [StartSpan, Outcome.state?] at h
    subst h
    simp
  · rcases hd : σ.deref p with _ | tn
    · simp [StartSpan, hd, Outcome.state?] at h
    · rcases htr : tn.Tracer with _ | tr
      · simp [StartSpan, hd, htr, Outcome.state?] at h
        subst h
        simp
      · rw [StartSpan_eq σ p tn tr name hd htr] at h
        simp only [Outcome.state?, Option.some.injEq] at h
        subst h
        refine ⟨rfl, rfl, rfl, rfl, rfl, rfl, by simp, ?_, ?_⟩
        · intro q hq
          have hne : p ≠ q := fun e => hq (by rw [e])
          simp [State.deref, List.getElem?_set_ne hne]
        · intro q
          by_cases hqp : p = q
          · subst hqp
            have hlt := lt_of_deref σ p tn hd
            simp only [State.deref] at hd
            simp [State.deref, hd, hlt]
          · simp [State.deref, List.getElem?_set_ne hqp]

/-! ## `NewTracer`, `NewEthermintTracer`, `NewCosmosTracer` -/

/-- C6: when `InitTracer(service, instance)` succeeds, `NewTracer` allocates a
new `TracerN` holding the tracer and the shutdown function `InitTracer`
returned and the background context, stores its address in `GlobalTracer`,
returns that address, and leaves `EthermintTracer`, `CosmosTracer` and every
object allocated before as they were. -/
theorem NewTracer_stores_global {S : Sdk} (service inst : String) (σ : State S)
    (hok : (InitTracer service inst σ).1.err = none) :
    ∃ (p : Ptr) (σ1 : State S),
      NewTracer service inst σ = .ret (some p) σ1 ∧
      σ1.GlobalTracer = some p ∧
      σ1.deref p = some { Tracer := (InitTracer service inst σ).1.tracer,
                          ctx := S.Background,
                          Shutdown := (InitTracer service inst σ).1.shutdown } ∧
      σ.deref p = none ∧
      σ1.EthermintTracer = σ.EthermintTracer ∧
      σ1.CosmosTracer = σ.CosmosTracer ∧
      (∀ q, q < σ.heap.length → σ1.deref q = σ.deref q) ∧
      σ1.activeProvider = (InitTracer service inst σ).2.activeProvider ∧
      σ1.world = (InitTracer service inst σ).2.world := by
  have hf := InitTracer_frame service inst σ
  have hN := NewTracer_eq service inst σ
  simp only [hok] at hN
  refine ⟨σ.heap.length, _, hN, rfl, ?_, ?_, hf.2.2.1, hf.2.2.2.1, ?_, rfl, rfl⟩
  · simp [State.deref]
  · simp [State.deref]
  · intro q hq
    simp [State.deref, List.getElem?_append_left hq]

/-- Witness for C6 on the sample SDK: `NewTracer("svc", "i0")` from the start
state. -/
theorem NewTracer_stores_global_witness :
    (InitTracer "svc" "i0" (State.init (0 : Nat) : State sampleSdk)).1.err = none ∧
    ∃ (p : Ptr) (σ1 : State sampleSdk),
      NewTracer "svc" "i0" (State.init (0 : Nat) : State sampleSdk) = .ret (some p) σ1 ∧
      σ1.GlobalTracer = some p ∧ σ1.ctxOf (some p) = some [] :=
  ⟨rfl,
    match NewTracer_stores_global (S := sampleSdk) "svc" "i0" (State.init (0 : Nat)) rfl with
    | ⟨p, σ1, h1, h2, h3, _⟩ => ⟨p, σ1, h1, h2, by simp [State.ctxOf, h3]⟩⟩

/-- C7: when `GlobalTracer` points to a `TracerN` and `InitTracer("ethermint",
"instance")` (resp. `InitTracer("cosmos-sdk", "instance")`) succeeds,
`NewEthermintTracer` (resp. `NewCosmosTracer`) allocates a new `TracerN` holding
what that `InitTracer` call returned and the context `GlobalTracer` holds at the
call, stores its address in `EthermintTracer` (resp. `CosmosTracer`), returns
that address, and leaves `GlobalTracer`, the object it points to and the other
named variable as they were. -/
theorem named_tracer_snapshots_global_ctx {S : Sdk} (σ : State S) (g : Ptr)
    (global : TracerN S) (hg : σ.GlobalTracer = some g) (hd : σ.deref g = some global) :
    ((InitTracer "ethermint" "instance" σ).1.err = none →
      ∃ (p : Ptr) (σ1 : State S),
        NewEthermintTracer σ = .ret (some p) σ1 ∧
        σ1.EthermintTracer = some p ∧
        σ1.deref p = some { Tracer := (InitTracer "ethermint" "instance" σ).1.tracer,
                            ctx := global.ctx,
                            Shutdown := (InitTracer "ethermint" "instance" σ).1.shutdown } ∧
        σ.deref p = none ∧
        σ1.GlobalTracer = some g ∧ σ1.deref g = some global ∧
        σ1.CosmosTracer = σ.CosmosTracer ∧
        σ1.activeProvider = (InitTracer "ethermint" "instance" σ).2.activeProvider ∧
        σ1.world = (InitTracer "ethermint" "instance" σ).2.world) ∧
    ((InitTracer "cosmos-sdk" "instance" σ).1.err = none →
      ∃ (p : Ptr) (σ1 : State S),
        NewCosmosTracer σ = .ret (some p) σ1 ∧
        σ1.CosmosTracer = some p ∧
        σ1.deref p = some { Tracer := (InitTracer "cosmos-sdk" "instance" σ).1.tracer,
                            ctx := global.ctx,
                            Shutdown := (InitTracer "cosmos-sdk" "instance" σ).1.shutdown } ∧
        σ.deref p = none ∧
        σ1.GlobalTracer = some g ∧ σ1.deref g = some global ∧
        σ1.EthermintTracer = σ.EthermintTracer ∧
        σ1.activeProvider = (InitTracer "cosmos-sdk" "instance" σ).2.activeProvider ∧
        σ1.world = (InitTracer "cosmos-sdk" "instance" σ).2.world) := by
  have hlt := lt_of_deref σ g global hd
  have hold : ∀ t : TracerN S, (σ.heap ++ [t])[g]? = some global := by
    intro t
    rw [List.getElem?_append_left hlt]
    exact hd
  constructor
  · intro hok
    have hf := InitTracer_frame "ethermint" "instance" σ
    have hN := NewEthermintTracer_eq σ
    simp only [hok, hg, hd] at hN
    refine ⟨σ.heap.length, _, hN, rfl, ?_, ?_, ?_, ?_, hf.2.2.2.1, rfl, rfl⟩
    · simp [State.deref]
    · simp [State.deref]
    · simp [hf.2.1, hg]
    · simp only [State.deref]
      exact hold _
  · intro hok
    have hf := InitTracer_frame "cosmos-sdk" "instance" σ
    have hN := NewCosmosTracer_eq σ
    simp only [hok, hg, hd] at hN
    refine ⟨σ.heap.length, _, hN, rfl, ?_, ?_, ?_, ?_, hf.2.2.1, rfl, rfl⟩
    · simp [State.deref]
    · simp [State.deref]
    · simp [hf.2.1, hg]
    · simp only [State.deref]
      exact hold _

/-- Witness for C7 on the sample SDK, in the state after `NewTracer("svc",
"i0")`: both named constructors return a new `TracerN` whose context is the
global one's. -/
theorem named_tracer_snapshots_global_ctx_witness :
    sampleGlobalState.GlobalTracer = some 0 ∧
    (∃ (p : Ptr) (σ1 : State sampleSdk),
      NewEthermintTracer sampleGlobalState = .ret (some p) σ1 ∧
      σ1.EthermintTracer = some p ∧ σ1.ctxOf (some p) = sampleGlobalState.ctxOf (some 0)) ∧
    (∃ (p : Ptr) (σ1 : State sampleSdk),
      NewCosmosTracer sampleGlobalState = .ret (some p) σ1 ∧
      σ1.CosmosTracer = some p ∧ σ1.ctxOf (some p) = sampleGlobalState.ctxOf (some 0)) :=
  have h := named_tracer_snapshots_global_ctx sampleGlobalState 0
    sampleGlobal rfl rfl
  ⟨rfl,
    (match h.1 rfl with
     | ⟨p, σ1, h1, h2, h3, _⟩ => ⟨p, σ1, h1, h2, by simp [State.ctxOf, h3]; rfl⟩),
    (match h.2 rfl with
     | ⟨p, σ1, h1, h2, h3, _⟩ => ⟨p, σ1, h1, h2, by simp [State.ctxOf, h3]; rfl⟩)⟩

/-- C8: when `GlobalTracer` is nil, `NewEthermintTracer` and `NewCosmosTracer`
do not return: the call ends in `log.Fatal` when `InitTracer` fails and in a nil
dereference of `GlobalTracer` otherwise, and at that point `EthermintTracer` and
`CosmosTracer` hold what they held before the call. -/
theorem named_tracer_without_global_never_returns {S : Sdk} (σ : State S)
    (hg : σ.GlobalTracer = none) :
    ((NewEthermintTracer σ).returned = false ∧
      NewEthermintTracer σ =
        (match (InitTracer "ethermint" "instance" σ).1.err with
         | some err => .fatal err (InitTracer "ethermint" "instance" σ).2
         | none => .panic .nilDereference (InitTracer "ethermint" "instance" σ).2) ∧
      (InitTracer "ethermint" "instance" σ).2.EthermintTracer = σ.EthermintTracer ∧
      (InitTracer "ethermint" "instance" σ).2.CosmosTracer = σ.CosmosTracer ∧
      (InitTracer "ethermint" "instance" σ).2.heap = σ.heap) ∧
    ((NewCosmosTracer σ).returned = false ∧
      NewCosmosTracer σ =
        (match (InitTracer "cosmos-sdk" "instance" σ).1.err with
         | some err => .fatal err (InitTracer "cosmos-sdk" "instance" σ).2
         | none => .panic .nilDereference (InitTracer "cosmos-sdk" "instance" σ).2) ∧
      (InitTracer "cosmos-sdk" "instance" σ).2.EthermintTracer = σ.EthermintTracer ∧
      (InitTracer "cosmos-sdk" "instance" σ).2.CosmosTracer = σ.CosmosTracer ∧
      (InitTracer "cosmos-sdk" "instance" σ).2.heap = σ.heap) := by
  constructor
  · have hf := InitTracer_frame "ethermint" "instance" σ
    have hN := NewEthermintTracer_eq σ
    simp only [hg] at hN
    refine ⟨?_, hN, hf.2.2.1, hf.2.2.2.1, hf.1⟩
    rw [hN]
    rcases (InitTracer "ethermint" "instance" σ).1.err with _ | e <;> rfl
  · have hf := InitTracer_frame "cosmos-sdk" "instance" σ
    have hN := NewCosmosTracer_eq σ
    simp only [hg] at hN
    refine ⟨?_, hN, hf.2.2.1, hf.2.2.2.1, hf.1⟩
    rw [hN]
    rcases (InitTracer "cosmos-sdk" "instance" σ).1.err with _ | e <;> rfl

/-- Witness for C8 on the sample SDK: at the start of the process, where
`GlobalTracer` is nil, neither named constructor returns. -/
theorem named_tracer_without_global_never_returns_witness :
    (State.init (0 : Nat) : State sampleSdk).GlobalTracer = none ∧
    (NewEthermintTracer (State.init (0 : Nat) : State sampleSdk)).returned = false ∧
    (NewCosmosTracer (State.init (0 : Nat) : State sampleSdk)).returned = false :=
  have h := named_tracer_without_global_never_returns
    (State.init (0 : Nat) : State sampleSdk) rfl
  ⟨rfl, h.1.1, h.2.1⟩

/-! ## `StartSpan` -/

/-- C4, as stated, fails: on a `TracerN` whose embedded `trace.Tracer` is nil
(the zero value of the field), `StartSpan("a")` starts no span; `t.Start` is a
call through a nil interface and panics. -/
theorem StartSpan_nil_tracer_panics :
    sampleBareState.deref 0 = some sampleBare ∧
    StartSpan (some 0) "a" sampleBareState = .panic .nilDereference sampleBareState ∧
    (StartSpan (some 0) "a" sampleBareState).returned = false :=
  ⟨rfl, rfl, rfl⟩

/-- C4, amended: for every `TracerN` `t` whose embedded tracer is non-nil, with
stored context `t.ctx`, `t.StartSpan(a)` then `t.StartSpan(b)` calls `Start`
with the server span kind, first on `t.ctx` and then on the context the first
`Start` returned; each call returns the span of its `Start`; and `t` ends up
holding the context the second `Start` returned. -/
theorem StartSpan_twice_chains {S : Sdk} (σ : State S) (p : Ptr) (t : TracerN S)
    (tr : S.Tracer) (a b : String)
    (ht : σ.deref p = some t) (htr : t.Tracer = some tr) :
    ∃ (c1 c2 : S.Context) (s1 s2 : S.Span) (w1 w2 : S.World) (σ1 σ2 : State S),
      S.Start tr t.ctx a [.WithSpanKind .SpanKindServer] σ.world = ((c1, s1), w1) ∧
      S.Start tr c1 b [.WithSpanKind .SpanKindServer] w1 = ((c2, s2), w2) ∧
      StartSpan (some p) a σ = .ret s1 σ1 ∧
      σ1.deref p = some { t with ctx := c1 } ∧
      StartSpan (some p) b σ1 = .ret s2 σ2 ∧
      σ2.deref p = some { t with ctx := c2 } ∧
      σ2.world = w2 := by
  have hlt := lt_of_deref σ p t ht
  have h1 := StartSpan_eq σ p t tr a ht htr
  rcases hs1 : S.Start tr t.ctx a [.WithSpanKind .SpanKindServer] σ.world with ⟨⟨c1, s1⟩, w1⟩
  rw [hs1] at h1
  have hd1 : State.deref { σ with world := w1, heap := σ.heap.set p { t with ctx := c1 } } p
      = some { t with ctx := c1 } := by
    simp [State.deref, hlt]
  have h2 := StartSpan_eq _ p _ tr b hd1 htr
  rcases hs2 : S.Start tr c1 b [.WithSpanKind .SpanKindServer] w1 with ⟨⟨c2, s2⟩, w2⟩
  simp only [hs2] at h2
  refine ⟨c1, c2, s1, s2, w1, w2, _, _, rfl, hs2, h1, hd1, h2, ?_, rfl⟩
  simp [State.deref, hlt]

/-- Witness for C4 (amended) on the sample SDK, on the global tracer made by
`NewTracer("svc", "i0")`: span "b" is started under span "a". -/
theorem StartSpan_twice_chains_witness :
    sampleGlobalState.deref 0 = some sampleGlobal ∧ sampleGlobal.Tracer = some ("svc", 0) ∧
    ∃ (s1 s2 : SampleSpan) (σ1 σ2 : State sampleSdk),
      StartSpan (some 0) "a" sampleGlobalState = .ret s1 σ1 ∧
      StartSpan (some 0) "b" σ1 = .ret s2 σ2 ∧
      s1.kind = .SpanKindServer ∧ s2.kind = .SpanKindServer ∧
      s1.parents = [] ∧ s2.parents = ["a"] ∧
      σ2.ctxOf (some 0) = some ["b", "a"] :=
  ⟨rfl, rfl,
    match StartSpan_twice_chains sampleGlobalState 0 sampleGlobal ("svc", 0) "a" "b" rfl rfl with
    | ⟨c1, c2, s1, s2, w1, w2, σ1, σ2, e1, e2, h1, _, h2, h3, _⟩ => by
      simp only [sampleSdk, Prod.mk.injEq] at e1
      obtain ⟨⟨hc1, hs1⟩, hw1⟩ := e1
      subst hc1 hs1 hw1
      simp only [sampleSdk, Prod.mk.injEq] at e2
      obtain ⟨⟨hc2, hs2⟩, hw2⟩ := e2
      subst hc2 hs2 hw2
      exact ⟨_, _, σ1, σ2, h1, h2, rfl, rfl, rfl, rfl, by simp [State.ctxOf, h3, sampleGlobal]⟩⟩

/-! ## The named tracers hold a snapshot -/

/-- Well-formedness, variable by variable. -/
theorem WF_iff_slots {S : Sdk} (σ : State S) :
    σ.WF ↔ ∀ m, σ.valid (σ.slot m) = true := by
  constructor
  · intro h m
    cases m
    · exact h.1
    · exact h.2.1
    · exact h.2.2
  · intro h
    exact ⟨h .GlobalTracer, h .EthermintTracer, h .CosmosTracer⟩

/-- A call that changes neither the variables nor the number of objects keeps
each variable's object its own. -/
theorem ownObject_of_same_slots {S : Sdk} (σ σ1 : State S) (n : Slot)
    (hs : ∀ m, σ1.slot m = σ.slot m) (hl : σ1.heap.length = σ.heap.length)
    (h : σ.ownObject n) : σ1.ownObject n := by
  refine ⟨(WF_iff_slots σ1).2 ?_, ?_⟩
  · intro m
    have := (WF_iff_slots σ).1 h.1 m
    rw [hs m]
    simpa [State.valid, hl] using this
  · intro m hm
    rw [hs n, hs m]
    exact h.2 m hm

/-- A call that allocates one object and stores its address in the variable `k`
makes that object `k`'s own, and keeps every other variable's object its
own. -/
theorem ownObject_of_alloc {S : Sdk} (σ σ1 : State S) (k n : Slot)
    (hk : σ1.slot k = some σ.heap.length)
    (ho : ∀ m, m ≠ k → σ1.slot m = σ.slot m)
    (hl : σ1.heap.length = σ.heap.length + 1)
    (hwf : σ.WF) (h : n ≠ k → σ.ownObject n) : σ1.ownObject n := by
  have hv := (WF_iff_slots σ).1 hwf
  have hlt : ∀ m p, σ.slot m = some p → p < σ.heap.length := by
    intro m p hp
    have := hv m
    simpa [State.valid, hp] using this
  refine ⟨(WF_iff_slots σ1).2 ?_, ?_⟩
  · intro m
    by_cases hmk : m = k
    · subst hmk
      simp [State.valid, hk, hl]
    · rw [ho m hmk]
      rcases hm : σ.slot m with _ | p
      · simp [State.valid]
      · have := hlt m p hm
        simp only [State.valid, hl, decide_eq_true_eq]
        exact Nat.lt_succ_of_lt this
  · intro m hm
    by_cases hnk : n = k
    · subst hnk
      rw [hk, ho m hm]
      rcases hq : σ.slot m with _ | q
      · simp [apart]
      · have := hlt m q hq
        simp only [apart, bne_iff_ne, ne_eq]
        exact Nat.ne_of_gt this
    · rw [ho n hnk]
      by_cases hmk : m = k
      · subst hmk
        rw [hk]
        rcases hp : σ.slot n with _ | p
        · simp [apart]
        · have := hlt n p hp
          simp only [apart, bne_iff_ne, ne_eq]
          exact Nat.ne_of_lt this
      · rw [ho m hmk]
        exact (h hnk).2 m hm

/-- What a returning `NewTracer` does to the variables and the number of
objects. -/
theorem NewTracer_ret_slots {S : Sdk} (s i : String) (σ σ1 : State S) (r : Option Ptr)
    (h : NewTracer s i σ = .ret r σ1) :
    σ1.slot .GlobalTracer = some σ.heap.length ∧
    (∀ m, m ≠ Slot.GlobalTracer → σ1.slot m = σ.slot m) ∧
    σ1.heap.length = σ.heap.length + 1 := by
  have hf := InitTracer_frame s i σ
  rw [NewTracer_eq] at h
  rcases he : (InitTracer s i σ).1.err with _ | e
  · simp only [he, Outcome.ret.injEq] at h
    obtain ⟨_, h⟩ := h
    subst h
    refine ⟨rfl, ?_, by simp⟩
    intro m hm
    cases m
    · exact absurd rfl hm
    · exact hf.2.2.1
    · exact hf.2.2.2.1
  · simp [he] at h

/-- What a returning `NewEthermintTracer` does to the variables and the number
of objects. -/
theorem NewEthermintTracer_ret_slots {S : Sdk} (σ σ1 : State S) (r : Option Ptr)
    (h : NewEthermintTracer σ = .ret r σ1) :
    σ1.slot .EthermintTracer = some σ.heap.length ∧
    (∀ m, m ≠ Slot.EthermintTracer → σ1.slot m = σ.slot m) ∧
    σ1.heap.length = σ.heap.length + 1 := by
  have hf := InitTracer_frame "ethermint" "instance" σ
  rw [NewEthermintTracer_eq] at h
  rcases he : (InitTracer "ethermint" "instance" σ).1.err with _ | e
  · rcases hg : σ.GlobalTracer with _ | g
    · simp [he, hg] at h
    · rcases hd : σ.deref g with _ | gt
      · simp [he, hg, hd] at h
      · simp only [he, hg, hd, Outcome.ret.injEq] at h
        obtain ⟨_, h⟩ := h
        subst h
        refine ⟨rfl, ?_, by simp⟩
        intro m hm
        cases m
        · exact hf.2.1
        · exact absurd rfl hm
        · exact hf.2.2.2.1
  · simp [he] at h

/-- What a returning `NewCosmosTracer` does to the variables and the number of
objects. -/
theorem NewCosmosTracer_ret_slots {S : Sdk} (σ σ1 : State S) (r : Option Ptr)
    (h : NewCosmosTracer σ = .ret r σ1) :
    σ1.slot .CosmosTracer = some σ.heap.length ∧
    (∀ m, m ≠ Slot.CosmosTracer → σ1.slot m = σ.slot m) ∧
    σ1.heap.length = σ.heap.length + 1 := by
  have hf := InitTracer_frame "cosmos-sdk" "instance" σ
  rw [NewCosmosTracer_eq] at h
  rcases he : (InitTracer "cosmos-sdk" "instance" σ).1.err with _ | e
  · rcases hg : σ.GlobalTracer with _ | g
    · simp [he, hg] at h
    · rcases hd : σ.deref g with _ | gt
      · simp [he, hg, hd] at h
      · simp only [he, hg, hd, Outcome.ret.injEq] at h
        obtain ⟨_, h⟩ := h
        subst h
        refine ⟨rfl, ?_, by simp⟩
        intro m hm
        cases m
        · exact hf.2.1
        · exact hf.2.2.1
        · exact absurd rfl hm
  · simp [he] at h

/-- Calling a stored shutdown function changes only the SDK's state. -/
theorem callShutdown_ret {S : Sdk} (t : Option Ptr) (σ σ1 : State S) (u : Unit)
    (h : callShutdown t σ = .ret u σ1) :
    (∀ m, σ1.slot m = σ.slot m) ∧ σ1.heap = σ.heap := by
  rcases t with _ | p
  · simp [callShutdown] at h
  · rcases hd : σ.deref p with _ | tn
    · simp [callShutdown, hd] at h
    · rcases hs : tn.Shutdown with _ | f
      · simp [callShutdown, hd, hs] at h
      · simp only [callShutdown, hd, hs, ShutdownFn.call] at h
        rcases hp : S.providerShutdown f.tp (S.WithTimeout S.Background 5) σ.world
          with ⟨_ | e, w1⟩
        · simp only [hp, Outcome.ret.injEq] at h
          obtain ⟨_, h⟩ := h
          subst h
          exact ⟨fun m => by cases m <;> rfl, rfl⟩
        · simp [hp] at h

/-- Every call of the package that returns keeps each variable's object its
own. -/
theorem execCall_ownObject {S : Sdk} (c : Call) (σ σ1 : State S) (n : Slot)
    (h : execCall c σ = some σ1) (hown : σ.ownObject n) : σ1.ownObject n := by
  cases c with
  | NewTracer s i =>
    rcases hN : NewTracer s i σ with ⟨r, σ2⟩ | _ | _ | _ <;> simp [execCall, hN] at h
    subst h
    obtain ⟨hk, ho, hl⟩ := NewTracer_ret_slots s i σ σ2 r hN
    exact ownObject_of_alloc σ σ2 .GlobalTracer n hk ho hl hown.1 (fun _ => hown)
  | NewEthermintTracer =>
    rcases hN : NewEthermintTracer σ with ⟨r, σ2⟩ | _ | _ | _ <;> simp [execCall, hN] at h
    subst h
    obtain ⟨hk, ho, hl⟩ := NewEthermintTracer_ret_slots σ σ2 r hN
    exact ownObject_of_alloc σ σ2 .EthermintTracer n hk ho hl hown.1 (fun _ => hown)
  | NewCosmosTracer =>
    rcases hN : NewCosmosTracer σ with ⟨r, σ2⟩ | _ | _ | _ <;> simp [execCall, hN] at h
    subst h
    obtain ⟨hk, ho, hl⟩ := NewCosmosTracer_ret_slots σ σ2 r hN
    exact ownObject_of_alloc σ σ2 .CosmosTracer n hk ho hl hown.1 (fun _ => hown)
  | InitTracer s i =>
    simp only [execCall, Option.some.injEq] at h
    subst h
    have hf := InitTracer_frame s i σ
    refine ownObject_of_same_slots σ _ n ?_ (by rw [hf.1]) hown
    intro m
    cases m
    · exact hf.2.1
    · exact hf.2.2.1
    · exact hf.2.2.2.1
  | StartSpan slot name =>
    rcases hN : StartSpan (σ.slot slot) name σ with ⟨r, σ2⟩ | _ | _ | _ <;>
      simp [execCall, hN] at h
    subst h
    have hf := StartSpan_frame (σ.slot slot) name σ σ2 (by rw [hN]; rfl)
    refine ownObject_of_same_slots σ σ2 n ?_ hf.2.2.2.2.2.2.1 hown
    intro m
    cases m
    · exact hf.1
    · exact hf.2.1
    · exact hf.2.2.1
  | Shutdown slot =>
    rcases hN : callShutdown (σ.slot slot) σ with ⟨r, σ2⟩ | _ | _ | _ <;>
      simp [execCall, hN] at h
    subst h
    have hf := callShutdown_ret (σ.slot slot) σ σ2 r hN
    exact ownObject_of_same_slots σ σ2 n hf.1 (by rw [hf.2]) hown
  | SetJaegerCollectorURL url =>
    simp only [execCall, Option.some.injEq] at h
    subst h
    exact ownObject_of_same_slots σ _ n (fun m => by cases m <;> rfl) rfl hown

/-- Every sequence of calls that all return keeps each variable's object its
own. -/
theorem runCalls_ownObject {S : Sdk} (calls : List Call) (σ σ1 : State S) (n : Slot)
    (h : runCalls calls σ = some σ1) (hown : σ.ownObject n) : σ1.ownObject n := by
  induction calls generalizing σ with
  | nil =>
    simp only [runCalls, Option.some.injEq] at h
    subst h
    exact hown
  | cons c rest ih =>
    rcases hc : execCall c σ with _ | σ2
    · simp [runCalls, hc] at h
    · simp only [runCalls, hc] at h
      exact ih σ2 h (execCall_ownObject c σ σ2 n hc hown)

/-- Being apart is symmetric. -/
theorem apart_comm (x y : Option Ptr) : apart x y = apart y x := by
  rcases x with _ | p <;> rcases y with _ | q <;> simp only [apart]
  by_cases h : p = q
  · subst h
    rfl
  · have h2 : q ≠ p := fun e => h e.symm
    simp [bne, h, h2]

/-- `StartSpan` leaves the stored context behind every pointer apart from its
receiver as it was. -/
theorem ctxOf_StartSpan_of_apart {S : Sdk} (t x : Option Ptr) (name : String)
    (σ σ1 : State S) (h : (StartSpan t name σ).state? = some σ1)
    (hap : apart x t = true) : σ1.ctxOf x = σ.ctxOf x := by
  rcases x with _ | q
  · rfl
  · have hne : some q ≠ t := by
      intro e
      subst e
      simp [apart] at hap
    have hf := StartSpan_frame t name σ σ1 h
    simp [State.ctxOf, hf.2.2.2.2.2.2.2.1 q hne]

/-- C10: `StartSpan` changes, besides the SDK's own state, only the stored
context of the `TracerN` it is called on: the package variables, every other
object, and the tracer and shutdown function of the object itself stay as they
were.  And from a state where no variable dangles, once `NewEthermintTracer`
(resp. `NewCosmosTracer`) has returned, after any further calls of the package
that return, `StartSpan` on `GlobalTracer` leaves the stored context of
`EthermintTracer` (resp. `CosmosTracer`) as it was, and `StartSpan` on
`EthermintTracer` (resp. `CosmosTracer`) leaves the stored contexts of
`GlobalTracer` and of the other named variable as they were. -/
theorem named_ctx_is_snapshot {S : Sdk} (σ0 : State S) (hwf : σ0.WF) :
    (∀ (t : Option Ptr) (name : String) (σ σ1 : State S),
      (StartSpan t name σ).state? = some σ1 →
        σ1.GlobalTracer = σ.GlobalTracer ∧ σ1.EthermintTracer = σ.EthermintTracer ∧
        σ1.CosmosTracer = σ.CosmosTracer ∧
        (∀ q, some q ≠ t → σ1.deref q = σ.deref q) ∧
        (∀ q, (σ1.deref q).map (·.Tracer) = (σ.deref q).map (·.Tracer) ∧
              (σ1.deref q).map (·.Shutdown) = (σ.deref q).map (·.Shutdown))) ∧
    (∀ (r : Option Ptr) (σ1 : State S), NewEthermintTracer σ0 = .ret r σ1 →
      ∀ (calls : List Call) (σ2 : State S), runCalls calls σ1 = some σ2 →
      ∀ (name : String) (σ3 : State S),
        ((StartSpan σ2.GlobalTracer name σ2).state? = some σ3 →
          σ3.ctxOf σ3.EthermintTracer = σ2.ctxOf σ2.EthermintTracer) ∧
        ((StartSpan σ2.EthermintTracer name σ2).state? = some σ3 →
          σ3.ctxOf σ3.GlobalTracer = σ2.ctxOf σ2.GlobalTracer ∧
          σ3.ctxOf σ3.CosmosTracer = σ2.ctxOf σ2.CosmosTracer)) ∧
    (∀ (r : Option Ptr) (σ1 : State S), NewCosmosTracer σ0 = .ret r σ1 →
      ∀ (calls : List Call) (σ2 : State S), runCalls calls σ1 = some σ2 →
      ∀ (name : String) (σ3 : State S),
        ((StartSpan σ2.GlobalTracer name σ2).state? = some σ3 →
          σ3.ctxOf σ3.CosmosTracer = σ2.ctxOf σ2.CosmosTracer) ∧
        ((StartSpan σ2.CosmosTracer name σ2).state? = some σ3 →
          σ3.ctxOf σ3.GlobalTracer = σ2.ctxOf σ2.GlobalTracer ∧
          σ3.ctxOf σ3.EthermintTracer = σ2.ctxOf σ2.EthermintTracer)) := by
  refine ⟨?_, ?_, ?_⟩
  · intro t name σ σ1 h
    have hf := StartSpan_frame t name σ σ1 h
    exact ⟨hf.1, hf.2.1, hf.2.2.1, hf.2.2.2.2.2.2.2.1, hf.2.2.2.2.2.2.2.2⟩
  · intro r σ1 hN calls σ2 hrun name σ3
    obtain ⟨hk, ho, hl⟩ := NewEthermintTracer_ret_slots σ0 σ1 r hN
    have hown1 : σ1.ownObject .EthermintTracer :=
      ownObject_of_alloc σ0 σ1 .EthermintTracer .EthermintTracer hk ho hl hwf
        (fun h => absurd rfl h)
    have hown := runCalls_ownObject calls σ1 σ2 .EthermintTracer hrun hown1
    have hG : apart σ2.EthermintTracer σ2.GlobalTracer = true :=
      hown.2 .GlobalTracer (by decide)
    have hC : apart σ2.EthermintTracer σ2.CosmosTracer = true :=
      hown.2 .CosmosTracer (by decide)
    constructor
    · intro h
      have hf := StartSpan_frame _ name σ2 σ3 h
      rw [hf.2.1]
      exact ctxOf_StartSpan_of_apart _ _ name σ2 σ3 h hG
    · intro h
      have hf := StartSpan_frame _ name σ2 σ3 h
      rw [hf.1, hf.2.2.1]
      exact ⟨ctxOf_StartSpan_of_apart _ _ name σ2 σ3 h (by rw [apart_comm]; exact hG),
        ctxOf_StartSpan_of_apart _ _ name σ2 σ3 h (by rw [apart_comm]; exact hC)⟩
  · intro r σ1 hN calls σ2 hrun name σ3
    obtain ⟨hk, ho, hl⟩ := NewCosmosTracer_ret_slots σ0 σ1 r hN
    have hown1 : σ1.ownObject .CosmosTracer :=
      ownObject_of_alloc σ0 σ1 .CosmosTracer .CosmosTracer hk ho hl hwf
        (fun h => absurd rfl h)
    have hown := runCalls_ownObject calls σ1 σ2 .CosmosTracer hrun hown1
    have hG : apart σ2.CosmosTracer σ2.GlobalTracer = true :=
      hown.2 .GlobalTracer (by decide)
    have hE : apart σ2.CosmosTracer σ2.EthermintTracer = true :=
      hown.2 .EthermintTracer (by decide)
    constructor
    · intro h
      have hf := StartSpan_frame _ name σ2 σ3 h
      rw [hf.2.2.1]
      exact ctxOf_StartSpan_of_apart _ _ name σ2 σ3 h hG
    · intro h
      have hf := StartSpan_frame _ name σ2 σ3 h
      rw [hf.1, hf.2.1]
      exact ⟨ctxOf_StartSpan_of_apart _ _ name σ2 σ3 h (by rw [apart_comm]; exact hG),
        ctxOf_StartSpan_of_apart _ _ name σ2 σ3 h (by rw [apart_comm]; exact hE)⟩

/-- Witness for C10 on the sample SDK: after `NewTracer`, `NewEthermintTracer`
and a span "root" on the global tracer, a further span "x" on the global tracer
moves the global context to `["x", "root"]` and leaves the ethermint tracer's
context the background context it took at its construction. -/
theorem named_ctx_is_snapshot_witness :
    sampleGlobalState.WF ∧
    NewEthermintTracer sampleGlobalState = .ret (some 1) sampleNamedState ∧
    ∃ (σ2 σ3 : State sampleSdk),
      runCalls [.StartSpan .GlobalTracer "root"] sampleNamedState = some σ2 ∧
      (StartSpan σ2.GlobalTracer "x" σ2).state? = some σ3 ∧
      σ3.ctxOf σ3.GlobalTracer = some ["x", "root"] ∧
      σ2.ctxOf σ2.EthermintTracer = some [] ∧
      σ3.ctxOf σ3.EthermintTracer = σ2.ctxOf σ2.EthermintTracer :=
  ⟨⟨rfl, rfl, rfl⟩, rfl,
    ⟨(runCalls [.StartSpan .GlobalTracer "root"] sampleNamedState).getD sampleNamedState,
     ((StartSpan (some 0) "x"
        ((runCalls [.StartSpan .GlobalTracer "root"] sampleNamedState).getD
          sampleNamedState)).state?).getD sampleNamedState,
     rfl, rfl, rfl, rfl,
     ((named_ctx_is_snapshot sampleGlobalState ⟨rfl, rfl, rfl⟩).2.1 (some 1) sampleNamedState
        rfl [.StartSpan .GlobalTracer "root"] _ rfl "x" _).1 rfl⟩⟩

end Tracer
